import Mathlib

/-!
Verification of the Continuous Improvement & Knowledge Hub dashboard
(`src/dashboards/kaizen_training_hub.py`).

The module under verification consists of three nullary data providers
returning hardcoded collections, and one rendering routine
(`render_kaizen_training_hub`) that composes them into a tabbed page of
UI-toolkit primitive calls, wrapped in a single catch-all exception handler.

Shallow embedding conventions:
* Each record type (`KaizenEvent`, `TrainingMaterial`, `GlossaryTerm`) mirrors
  the dictionary shapes used in the source; the glossary's optional `formula`
  key becomes an `Option String` field.
* The rendering routine is modelled as a pure function that emits the ordered
  list of display-primitive calls (`UICall`) the toolkit would receive.
  Purely presentational keyword arguments of the toolkit calls (CSS styling,
  button color/width/help text, banner icons kept where claim-relevant) do not
  affect any claim and are elided where noted.
* Exceptions are modelled with `Except String`: the provider calls inside the
  `try` block are abstracted as `Except`-valued arguments so that the
  catch-all's behavior under provider failure can be stated; the routine's own
  outcome is `Except String (List UICall)`, where `.error` would mean an
  exception escaping its boundary.
* The source stores `duration_hr` as a float literal (e.g. `2.5`); it is only
  ever interpolated into markup text, so we embed its rendered decimal text.
-/

/-- One primitive call issued to the display toolkit (or, for `logError`,
to the logging sink).  The constructors correspond to the `st.*` calls made by
the dashboard module, flattened in issue order; `markdownHtml` is
`st.markdown(..., unsafe_allow_html=True)`. -/
inductive UICall where
  | header (text : String)
  | subheader (text : String)
  | markdown (text : String)
  | markdownHtml (html : String)
  | caption (text : String)
  | info (text : String) (icon : String)
  | success (text : String) (icon : String)
  | warning (text : String)
  | error (text : String)
  | tabs (labels : List String)
  | containerStart (border : Bool)
  | columns (widths : List Nat)
  | button (label : String) (key : String) (disabled : Bool)
  | expander (label : String) (expanded : Bool)
  | latex (formula : String)
  | write (text : String)
  | logError (msg : String)
deriving Repr, DecidableEq

/-- The opaque application-state handle passed by the host
(`SessionStateManager`); the dashboard accepts it but never reads it. -/
structure SessionStateManager where
  mk ::
deriving Repr, DecidableEq

/-- One Kaizen event record, mirroring the dictionaries returned by
`get_overhauled_kaizen_data`. -/
structure KaizenEvent where
  id : String
  title : String
  site : String
  date : String
  problem_background : String
  analysis_and_countermeasures : String
  quantified_results : String
  key_insight : String
deriving Repr, DecidableEq

/-- One training-library record, mirroring the dictionaries returned by
`get_overhauled_training_data`. -/
structure TrainingMaterial where
  id : String
  title : String
  type : String
  duration_hr : String
  target_audience : String
  link : String
  icon : String
  description : String
  learning_objectives : List String
  recommended_reading : String
deriving Repr, DecidableEq

/-- One glossary entry, mirroring the per-term dictionaries of
`get_glossary_content`; the optional `formula` key becomes an `Option`. -/
structure GlossaryTerm where
  term : String
  definition : String
  formula : Option String := none
deriving Repr, DecidableEq

/-- `get_overhauled_kaizen_data`: the fixed Kaizen event list, in source
order (KZN-02, KZN-01, KZN-04, KZN-03). -/
def get_overhauled_kaizen_data (_ : Unit) : List KaizenEvent :=
  [ { id := "KZN-02"
    , title := "SMED on Stamping Press P-101"
    , site := "Andover, US"
    , date := "2025-06-15"
    , problem_background := "The Stamping Press P-101 has an average changeover time of 55 minutes, causing significant production downtime and limiting our ability to run smaller, more flexible batch sizes. This fails to meet the operational target of <15 minutes."
    , analysis_and_countermeasures := "\n            - **Analysis:** A Gemba walk and video analysis (based on Shigeo Shingo's SMED methodology) revealed that 70% of changeover activities were 'internal' (machine stopped). Key opportunities included pre-staging dies, standardizing tools, and eliminating manual adjustments.\n            - **Countermeasures Implemented:**\n                1.  **Converted Internal to External:** Designed a pre-heating cart for the next die set.\n                2.  **Standardized Clamping:** Replaced multi-size bolts with standardized, quick-release clamps.\n                3.  **Introduced Poka-Yoke:** Added alignment pins to the die-set to eliminate measurement adjustments.\n                4.  **Created Standard Work:** Developed a one-page visual guide for the 2-person changeover team.\n            "
    , quantified_results := "Reduced average changeover time from 55 minutes to 9 minutes (an 83% reduction). This unlocked an additional 120 minutes of production capacity per day and enabled an immediate move to a 'pull' system for downstream assembly."
    , key_insight := "The biggest gains came not from operators working faster, but from eliminating entire steps of the process. True efficiency is in the design of the work itself, not the effort of the worker." }
  , { id := "KZN-01"
    , title := "5S Implementation in Main Assembly Cell"
    , site := "Eindhoven, NL"
    , date := "2025-05-22"
    , problem_background := "The Main Assembly cell was experiencing frequent micro-stoppages due to operators searching for tools, components, and fixtures. This introduced significant variability into the Takt time and was a source of operator frustration."
    , analysis_and_countermeasures := "\n            - **Analysis:** A spaghetti diagram of operator movement during a single shift revealed over 400 meters of unnecessary walking. The root cause was a lack of standardized locations for tools and materials.\n            - **Countermeasures Implemented (5S):**\n                1.  **Sort:** Red-tagged all non-essential items; 3 skids of clutter were removed.\n                2.  **Set in Order:** Created shadow boards for all hand tools. Implemented a color-coded bin system for fasteners.\n                3.  **Shine:** Conducted a deep clean and established a daily 5-minute cleaning schedule.\n                4.  **Standardize:** Laminated standard work instructions for tool placement and end-of-shift cleanup.\n                5.  **Sustain:** Added 5S adherence to the daily Gemba walk checklist and supervisor standard work.\n            "
    , quantified_results := "Eliminated 95% of 'searching' time, reducing average assembly time by 15%. Operator-reported ergonomic strain and frustration decreased significantly, confirmed by a post-event survey (results redacted for privacy)."
    , key_insight := "A clean and organized workplace is not about aesthetics; it is a prerequisite for quality and efficiency. When everything has a place, deviations from standard become immediately visible." }
  , { id := "KZN-04"
    , title := "Invoice Processing Lead Time Reduction"
    , site := "Corporate HQ"
    , date := "2025-07-20"
    , problem_background := "The average lead time from invoice receipt to payment approval is 18 days, causing late payment fees and straining supplier relationships. The goal was to reduce this to <5 days by eliminating non-value-added steps."
    , analysis_and_countermeasures := "\n            - **Analysis:** A detailed process map and swimlane diagram revealed significant 'waiting' waste. 80% of the lead time was spent in queues awaiting manual review, data entry into three separate systems, and manager approval.\n            - **Countermeasures Implemented:**\n                1.  **Eliminated Redundant Data Entry:** Utilized robotic process automation (RPA) to sync data between systems after initial entry.\n                2.  **Established Standard Work:** Created a clear policy for approval thresholds, empowering clerks to approve payments below $5,000 without manager sign-off.\n                3.  **Visual Management:** Implemented a digital Kanban board (To Do, In Progress, Done) for full visibility of the invoice workload.\n            "
    , quantified_results := "Reduced average lead time from 18 days to 3.5 days. Eliminated all late payment fees in the first quarter post-implementation, saving an estimated $120k annually."
    , key_insight := "Lean principles are not just for the factory floor. Transactional processes are often filled with the most 'hidden' waste, offering huge opportunities for improvement." }
  , { id := "KZN-03"
    , title := "Root Cause Analysis (RCA) of Intermittent Sensor Failures"
    , site := "Shanghai, CN"
    , date := "2025-07-01"
    , problem_background := "The final test stage for the Affiniti Ultrasound system was experiencing a 4% failure rate due to intermittent 'Signal Lost' errors from a key pressure sensor, causing costly rework and diagnostic time."
    , analysis_and_countermeasures := "\n            - **Analysis:** An Ishikawa (Fishbone) diagram was used to brainstorm potential causes. The '5 Whys' technique was then applied to the most likely cause, 'Incorrect Connector Seating'.\n                1. **Why?** The connector was not fully seated.\n                2. **Why?** The operator could not get enough leverage.\n                3. **Why?** The access angle was awkward.\n                4. **Why?** A new bracket was installed in a previous update.\n                5. **Why? (Root Cause)** The bracket design did not account for tool clearance for the sensor connector.\n            - **Countermeasure Implemented:** A cross-functional team of engineering and manufacturing redesigned the bracket with an access cutout. A torque-limiting screwdriver with an audible 'click' was also introduced as a Poka-Yoke.\n            "
    , quantified_results := "Reduced the specific 'Signal Lost' failure rate from 4% to 0.1% within one week of implementation. Rework costs were reduced by an estimated $250k annually."
    , key_insight := "Technical problems are often symptoms of process or design flaws. Persistently asking 'Why' moves the team beyond blaming components or people to fixing the underlying system." }
  ]

/-- `get_overhauled_training_data`: the fixed training library, in source order
(TRN-101 .. TRN-105). -/
def get_overhauled_training_data (_ : Unit) : List TrainingMaterial :=
  [ { id := "TRN-101"
    , title := "A3 Thinking: The Art of Problem Solving on a Single Page"
    , type := "eLearning"
    , duration_hr := "2.5"
    , target_audience := "Engineers, Team Leads, Managers"
    , link := "#"
    , icon := "📝"
    , description := "This module explores the Toyota Production System's powerful A3 methodology, which structures problem-solving into a narrative format on a single sheet of A3-sized paper. It is a tool for mentorship, clear communication, and data-driven decision making."
    , learning_objectives :=
        [ "Understand the 7 sections of a standard A3 Report."
        , "Frame a problem statement effectively."
        , "Use the PDCA (Plan-Do-Check-Act) cycle within the A3 framework."
        , "Visually communicate root cause analysis and countermeasures." ]
    , recommended_reading := "'Managing to Learn' by John Shook" }
  , { id := "TRN-102"
    , title := "Statistical Process Control (SPC) Masterclass"
    , type := "Workshop Slides"
    , duration_hr := "8.0"
    , target_audience := "Quality Engineers, Process Technicians"
    , link := "#"
    , icon := "📊"
    , description := "A deep dive into the principles of Dr. W. Edwards Deming and Walter Shewhart. This workshop provides the statistical foundation for understanding process variation, distinguishing between common and special causes, and using control charts to monitor and improve process stability."
    , learning_objectives :=
        [ "Calculate control limits for I-MR, Xbar-R, and p-charts."
        , "Interpret control chart signals (e.g., Nelson Rules)."
        , "Define and calculate process capability indices (Cp, Cpk)."
        , "Understand the relationship between process control and process capability." ]
    , recommended_reading := "'Understanding Variation: The Key to Managing Chaos' by Donald J. Wheeler" }
  , { id := "TRN-103"
    , title := "Leading Kaizen Events: A Facilitator's Guide"
    , type := "PDF Guide"
    , duration_hr := "4.0"
    , target_audience := "MBB, Black Belts, CI Leads"
    , link := "#"
    , icon := "🤝"
    , description := "This guide provides a practical, step-by-step framework for planning, executing, and sustaining a successful week-long Kaizen event. It covers team selection, scoping, daily management, and follow-up activities to ensure that improvements are not only made but also maintained."
    , learning_objectives :=
        [ "Develop a compelling Kaizen charter."
        , "Manage team dynamics and engage stakeholders."
        , "Facilitate brainstorming and root cause analysis sessions."
        , "Establish a 30-day follow-up plan to ensure sustainability." ]
    , recommended_reading := "'Kaizen: The Key to Japan's Competitive Success' by Masaaki Imai" }
  , { id := "TRN-104"
    , title := "Failure Mode and Effects Analysis (FMEA)"
    , type := "eLearning"
    , duration_hr := "3.0"
    , target_audience := "Engineering, R&D, Quality"
    , link := "#"
    , icon := "🛡️"
    , description := "Learn to proactively identify and mitigate risks in product and process design. This module teaches the systematic approach of FMEA to anticipate potential failures, assess their impact, and implement robust controls before problems reach the customer."
    , learning_objectives :=
        [ "Distinguish between Design FMEAs and Process FMEAs."
        , "Calculate Risk Priority Numbers (RPN)."
        , "Develop effective detection and prevention controls."
        , "Integrate FMEA into the product development lifecycle." ]
    , recommended_reading := "'The FMEA Pocket Handbook' by D. H. Stamatis" }
  , { id := "TRN-105"
    , title := "Value Stream Mapping (VSM)"
    , type := "Workshop Slides"
    , duration_hr := "6.0"
    , target_audience := "Operations, CI Leads, Management"
    , link := "#"
    , icon := "🌊"
    , description := "This workshop teaches you how to see the flow of value and, more importantly, the flow of waste. Learn to create current-state and future-state maps that visualize not just material flow, but information flow, to design truly lean systems from end to end."
    , learning_objectives :=
        [ "Identify a value stream and its product family."
        , "Calculate key metrics like Lead Time, Process Time, and Process Cycle Efficiency."
        , "Draw current-state and future-state maps using standard iconography."
        , "Develop a Kaizen-based implementation plan." ]
    , recommended_reading := "'Learning to See' by Mike Rother and John Shook" }
  ]

/-- `get_glossary_content`: the fixed glossary, a mapping from category name to
term list; the Python `dict` preserves insertion order, so it is embedded as an
association list in source order. -/
def get_glossary_content (_ : Unit) : List (String × List GlossaryTerm) :=
  [ ( "Lean Principles"
    , [ { term := "Takt Time"
        , definition := "The rate at which a finished product needs to be completed to meet customer demand. It is the 'heartbeat' of a lean system."
        , formula := some "Takt\\ Time = \\frac\x7b\\text\x7bAvailable Production Time per Day\x7d\x7d\x7b\\text\x7bCustomer Demand per Day\x7d\x7d" }
      , { term := "Gemba (現場)"
        , definition := "Japanese for 'the real place.' It refers to the location where value is created, such as the factory floor or a service desk." }
      , { term := "Kaizen (改善)"
        , definition := "A strategy of 'Continuous Improvement' where small, ongoing, positive changes are made to a process. It emphasizes employee involvement and a culture of incremental enhancement." }
      , { term := "Muda (無駄), Mura (斑), Muri (無理)"
        , definition := "The '3 M's' of waste in the Toyota Production System. **Muda:** Non-value-added waste. **Mura:** Unevenness or irregularity. **Muri:** Overburdening equipment or operators." }
      , { term := "Muda (無駄)"
        , definition := "Japanese for 'waste.' It refers to any activity that consumes resources but creates no value for the customer. The 7 classic wastes are: Transport, Inventory, Motion, Waiting, Overproduction, Over-processing, and Defects (TIMWOOD)." }
      , { term := "Jidoka (自働化)"
        , definition := "Autonomation or 'automation with a human touch.' The principle of designing equipment to stop automatically and signal immediately when a problem occurs, preventing the mass production of defects." }
      , { term := "Heijunka (平準化)"
        , definition := "Production leveling. The process of smoothing the type and quantity of production over a fixed period. This reduces Mura (unevenness) and minimizes inventory." }
      , { term := "Kanban (看板)"
        , definition := "A scheduling system for lean manufacturing and just-in-time manufacturing (JIT). It is a visual signal (e.g., a card) that triggers an action, such as replenishing a part." }
      , { term := "Poka-Yoke (ポカヨケ)"
        , definition := "A 'mistake-proofing' mechanism. Any technique in a process that helps to avoid errors by preventing, correcting, or drawing attention to them as they occur." }
      , { term := "Value Stream Mapping (VSM)"
        , definition := "A flowchart method used to visualize, analyze, and improve all the steps in a product delivery process, from raw materials to the customer. It helps identify and eliminate waste (Muda)." }
      , { term := "5S"
        , definition := "A workplace organization method based on five Japanese words: Seiri (Sort), Seiton (Set in Order), Seisō (Shine), Seiketsu (Standardize), and Shitsuke (Sustain)." }
      ] )
  , ( "Six Sigma Concepts"
    , [ { term := "DMAIC"
        , definition := "The core data-driven improvement cycle: **D**efine the problem, **M**easure key aspects of the current process, **A**nalyze the data to investigate root causes, **I**mprove the process, and **C**ontrol the future state." }
      , { term := "DPMO (Defects Per Million Opportunities)"
        , definition := "A key metric for process performance. It represents the number of defects in a process per one million opportunities. A Six Sigma process aims for 3.4 DPMO."
        , formula := some "DPMO = \\frac\x7b\\text\x7bNumber of Defects\x7d\x7d\x7b\\text\x7bNumber of Units\x7d \\times \\text\x7bOpportunities per Unit\x7d\x7d \\times 1,000,000" }
      , { term := "Process Capability (Cp)"
        , definition := "Measures the potential capability of a process, assuming it is perfectly centered between the specification limits. It answers: 'Is the process spread narrow enough?'"
        , formula := some "C_p = \\frac\x7bUSL - LSL\x7d\x7b6\\sigma\x7d" }
      , { term := "Process Capability (Cpk)"
        , definition := "Measures the actual capability of a process, accounting for its centering. It represents the 'worst-case' side of the process distribution. A Cpk of >1.33 is often a minimum target."
        , formula := some "C_\x7bpk\x7d = \\min\\left(\\frac\x7bUSL - \\mu\x7d\x7b3\\sigma\x7d, \\frac\x7b\\mu - LSL\x7d\x7b3\\sigma\x7d\\right)" }
      , { term := "COPQ (Cost of Poor Quality)"
        , definition := "The total financial loss incurred from producing defective products or services. Includes internal failure costs (scrap, rework) and external failure costs (warranty claims, returns)." }
      , { term := "Voice of the Customer (VOC)"
        , definition := "The process of capturing customer expectations, preferences, and aversions. The VOC is translated into Critical-to-Quality (CTQ) requirements for the process." }
      , { term := "Rolled Throughput Yield (RTY)"
        , definition := "The probability that a multi-step process will produce a defect-free unit. It is the product of the First Time Yields (FTY) of each process step."
        , formula := some "RTY = FTY_1 \\times FTY_2 \\times \\dots \\times FTY_n" }
      ] )
  , ( "Statistical & Analytical Methods"
    , [ { term := "Control Chart Limits"
        , definition := "The horizontal lines on a control chart (UCL/LCL) that represent the 'voice of the process.' They are calculated from the process data and typically set at ±3 standard deviations from the center line."
        , formula := some "UCL/LCL = \\mu \\pm 3\\sigma" }
      , { term := "Hypothesis Testing"
        , definition := "A formal statistical procedure used to accept or reject a claim about a process or population based on sample data. It involves a Null Hypothesis (H₀, the status quo) and an Alternative Hypothesis (Hₐ)." }
      , { term := "p-value"
        , definition := "The probability of obtaining test results at least as extreme as the results actually observed, assuming the null hypothesis is correct. A small p-value (typically ≤ 0.05) indicates strong evidence against the null hypothesis." }
      , { term := "ANOVA (Analysis of Variance)"
        , definition := "A statistical test used to determine whether there are any statistically significant differences between the means of two or more independent groups." }
      , { term := "Confidence Interval"
        , definition := "A range of values, derived from sample statistics, that is likely to contain the value of an unknown population parameter. A 95% confidence interval means we are 95% confident the true population mean lies within that range." }
      , { term := "Gage R&R (Repeatability & Reproducibility)"
        , definition := "A statistical study to evaluate the precision of a measurement system. **Repeatability** is the variation from the same operator using the same tool. **Reproducibility** is the variation between different operators using the same tool." }
      , { term := "Regression Analysis"
        , definition := "A set of statistical processes for estimating the relationships between a dependent variable (the 'output' or 'Y') and one or more independent variables (the 'inputs' or 'X's)." }
      , { term := "Design of Experiments (DOE)"
        , definition := "A systematic method to determine the relationship between factors affecting a process and the output of that process. Used to find the optimal 'recipe' for a process with minimal experimental runs." }
      ] )
  , ( "AI/ML for Operations"
    , [ { term := "Supervised Learning"
        , definition := "A type of machine learning where the model learns from data that has been manually labeled with the correct outcomes. Analogy: Learning with an 'answer key.' (e.g., training a model on historical data of 'Pass' vs. 'Fail' parts)." }
      , { term := "Unsupervised Learning"
        , definition := "A type of machine learning where the model works on its own to discover patterns and information in unlabeled data. Analogy: Finding hidden groups without an answer key. (e.g., K-Means clustering to find different failure modes)." }
      , { term := "Isolation Forest"
        , definition := "An unsupervised algorithm excellent for anomaly detection. It works by 'isolating' outliers, which are easier to separate from the main data cluster." }
      , { term := "Random Forest"
        , definition := "A powerful supervised learning algorithm that is an 'ensemble' of many individual decision trees. It averages their predictions to produce a more accurate and stable result. Excellent for predictive quality tasks." }
      , { term := "SHAP (SHapley Additive exPlanations)"
        , definition := "A game-theoretic approach used to explain the output of any machine learning model. It connects optimal credit allocation with local explanations to understand *why* a model made a specific prediction for a single instance." }
      ] )
  ]

/-- The string ordering used by the embedding.  Python compares strings
lexicographically by code point, which is exactly Lean core's `List.lt` on the
character data (core's `LT String` instance). -/
def strLt (s t : String) : Prop := List.lt s.data t.data

instance : DecidableRel strLt := fun s t =>
  List.hasDecidableLt s.data t.data

/-- Non-strict string comparison derived from `strLt` (mirrors core
`String.le`: `s ≤ t ↔ ¬ t < s`). -/
def strLe (s t : String) : Prop := ¬ strLt t s

instance : DecidableRel strLe := fun _ _ =>
  inferInstanceAs (Decidable (Not _))

/-- `pd.DataFrame(kaizen_events).sort_values(by='date', ascending=False)`
(line 244): the event rows reordered into descending raw-string order of the
`date` column.  Pandas compares the Python string values of the column, i.e.
code-point lexicographic comparison; with pairwise distinct dates (the only
inputs the claims quantify over) every correct sort produces the same result,
so insertion sort is used. -/
def sort_values_date_descending (kaizen_events : List KaizenEvent) : List KaizenEvent :=
  List.insertionSort (fun a b => strLe b.date a.date) kaizen_events

/-- The per-event bordered block of the Kaizen Event Log tab
(source lines 245-267, including the trailing `st.write("")`). -/
def renderEventBlock (event : KaizenEvent) : List UICall :=
  [ .containerStart true
  , .columns [3, 1]
  , .markdown ("#### " ++ event.title)
  , .caption ("**A3 ID:** " ++ event.id ++ " | **Site:** " ++ event.site ++ " | **Completion Date:** " ++ event.date)
  , .button "View Full A3 Report" ("report_" ++ event.id) true
  , .markdown "**Problem Background:**"
  , .markdown ("> " ++ event.problem_background)
  , .expander "**View Detailed Analysis & Countermeasures**" false
  , .markdown event.analysis_and_countermeasures
  , .caption "_Detailed schematics, raw data, and financial models are redacted from this view and available in the full A3 report._"
  , .markdown "**Quantified Results:**"
  , .success event.quantified_results "💡"
  , .markdown "**Key Insight / Lesson Learned:**"
  , .info event.key_insight "🔬"
  , .write "" ]

/-- The Kaizen Event Log tab (source lines 237-267): warning placeholder on an
empty list, otherwise one block per event in descending date order. -/
def renderEventsTab (kaizen_events : List KaizenEvent) : List UICall :=
  [ .subheader "Implementing Kaizen: A Chronicle of Realized Improvements"
  , .markdown "Each event below is a testament to a team's dedication to making our work better. Review these A3 summaries to understand the 'Why' behind the change and to find inspiration for your own area." ] ++
  if kaizen_events.isEmpty then
    [ .warning "No Kaizen events have been logged in the data model." ]
  else
    (sort_values_date_descending kaizen_events).flatMap renderEventBlock

/-- `''.join([f"<li>{obj}</li>" for obj in material['learning_objectives']])`:
the `<ul>` body of a training card, one `<li>` item per learning objective. -/
def objectives_html (learning_objectives : List String) : String :=
  String.join (learning_objectives.map fun obj => "<li>" ++ obj ++ "</li>")

/-- Literal segments of the training-card HTML template (source lines 279-300),
split at the f-string interpolation points. -/
def tcHtml1 : String := "\n                    <div style=\"border: 1px solid #c8c8c8; border-left: 6px solid #007bff; border-radius: 8px; padding: 20px; margin-bottom: 15px; box-shadow: 0 2px 4px rgba(0,0,0,0.1);\">\n                        <div style=\"display: flex; align-items: flex-start;\">\n                            <span style=\"font-size: 2.5em; margin-right: 25px; margin-top: 5px;\">"

def tcHtml2 : String := "</span>\n                            <div style=\"flex-grow: 1;\">\n                                <div style=\"font-weight: bold; font-size: 1.2em; margin-bottom: 5px;\">"

def tcHtml3 : String := "</div>\n                                <div style=\"font-size: 0.9em; color: #555; margin-bottom: 15px;\">\n                                    <span><b>Type:</b> "

def tcHtml4 : String := "</span> |\n                                    <span><b>Est. Duration:</b> "

def tcHtml5 : String := " hrs</span> |\n                                    <span><b>Primary Audience:</b> "

def tcHtml6 : String := "</span>\n                                </div>\n                                <p style=\"font-size: 1em; color: #333; margin-bottom: 15px;\">"

def tcHtml7 : String := "</p>\n                                <div style=\"background-color: #f8f9fa; padding: 10px; border-radius: 5px; font-size: 0.9em;\">\n                                    <b>Learning Objectives:</b>\n                                    <ul>"

def tcHtml8 : String := "</ul>\n                                    <b>Recommended Reading:</b> <i>"

def tcHtml9 : String := "</i>\n                                </div>\n                                <a href=\""

def tcHtml10 : String := "\" target=\"_blank\" style=\"display: inline-block; background-color: #007bff; color: white; padding: 8px 15px; margin-top: 15px; border-radius: 5px; text-decoration: none; font-weight: bold;\">Launch Module</a>\n                            </div>\n                        </div>\n                    </div>\n                    "

/-- The HTML card emitted for one training material: the f-string of source
lines 279-300 with the record's fields interpolated into the template. -/
def training_card_html (material : TrainingMaterial) : String :=
  tcHtml1 ++ material.icon ++ tcHtml2 ++ material.title ++ tcHtml3 ++
  material.type ++ tcHtml4 ++ material.duration_hr ++ tcHtml5 ++
  material.target_audience ++ tcHtml6 ++ material.description ++ tcHtml7 ++
  objectives_html material.learning_objectives ++ tcHtml8 ++
  material.recommended_reading ++ tcHtml9 ++ material.link ++ tcHtml10

/-- The Training Library tab (source lines 270-300): warning placeholder on an
empty catalog, otherwise one `unsafe_allow_html` markdown card per material in
catalog order. -/
def renderTrainingTab (training_materials : List TrainingMaterial) : List UICall :=
  [ .subheader "Empowering Excellence Through Education"
  , .markdown "A commitment to quality begins with a commitment to learning. This curated library provides resources to develop skills at every level of the organization, from foundational principles to advanced statistical methods." ] ++
  if training_materials.isEmpty then
    [ .warning "No training materials are available in the data model." ]
  else
    training_materials.map fun material => .markdownHtml (training_card_html material)

/-- The per-term calls inside a glossary category's expander
(source lines 308-313): term name, block-quoted definition, the formula only
when present, and a spacing `st.write("")`. -/
def renderGlossaryTerm (item : GlossaryTerm) : List UICall :=
  [ .markdown ("**" ++ item.term ++ "**")
  , .markdown ("> " ++ item.definition) ] ++
  (match item.formula with
   | some f => [ .latex f ]
   | none => []) ++
  [ .write "" ]

/-- The Glossary tab (source lines 302-313): one expander per category, with
`expanded=(category == "Lean Principles")`, containing its terms.  Note the
source has no empty-collection check for the glossary. -/
def renderGlossaryTab (glossary : List (String × List GlossaryTerm)) : List UICall :=
  [ .subheader "The Common Language of Continuous Improvement"
  , .markdown "Use this dictionary to understand the key terms, concepts, and methodologies that form the foundation of our operational excellence program. A shared vocabulary is essential for effective collaboration and problem-solving." ] ++
  glossary.flatMap fun cat =>
    .expander ("**" ++ cat.1 ++ "**") (cat.1 == "Lean Principles") ::
      cat.2.flatMap renderGlossaryTerm

/-- The body of the `try` block (source lines 224-313): call the three
providers, then emit the info banner, the tab bar and the three tab panels.
The provider calls are abstracted as `Except`-valued arguments: a `.error`
argument models that provider call raising, and short-circuits the body
exactly as a Python exception would. -/
def renderTryBody (ke : Except String (List KaizenEvent))
    (tm : Except String (List TrainingMaterial))
    (gc : Except String (List (String × List GlossaryTerm))) :
    Except String (List UICall) := do
  let kaizen_events ← ke
  let training_materials ← tm
  let glossary ← gc
  pure ([ .info "Select a tab to review the A3 reports from past Kaizen events or to access our curated library of quality and CI training." "🧠"
        , .tabs ["🏆 **Kaizen Event A3 Log**", "📚 **Training & Development Library**", "📖 **Methodologies & Terminology Glossary**"] ]
      ++ renderEventsTab kaizen_events
      ++ renderTrainingTab training_materials
      ++ renderGlossaryTab glossary)

/-- The `except Exception as e` handler (source lines 315-317): one error
banner embedding the failure description, one log entry. -/
def exceptionHandler (e : String) : List UICall :=
  [ .error ("An error occurred while rendering the Kaizen & Training Hub: " ++ e)
  , .logError ("Failed to render kaizen and training hub: " ++ e) ]

/-- The introductory markdown block (source lines 219-222), emitted before the
`try` block. -/
def pageIntroText : String := "\n    Welcome to the central nervous system of our learning organization. This hub is the catalyst for our Continuous Improvement (CI) culture.\n    Here, we **celebrate our successes**, **share our wisdom**, and **empower our teams** with the knowledge to drive process excellence.\n    "

/-- `render_kaizen_training_hub(ssm)` (source lines 216-317).  The state
handle is accepted and unused, as in the source.  The outcome is
`Except String (List UICall)`: a `.error` result would be an exception
escaping the function's boundary; the `match` is the `try`/`except`, whose
handler arm returns normally (`.ok`) after emitting the banner and the log
entry. -/
def render_kaizen_training_hub (_ssm : SessionStateManager)
    (ke : Except String (List KaizenEvent))
    (tm : Except String (List TrainingMaterial))
    (gc : Except String (List (String × List GlossaryTerm))) :
    Except String (List UICall) :=
  let intro : List UICall :=
    [ .header "🎓 Continuous Improvement & Knowledge Hub"
    , .markdown pageIntroText ]
  match renderTryBody ke tm gc with
  | .ok body => .ok (intro ++ body)
  | .error e => .ok (intro ++ exceptionHandler e)

/-- The page as actually rendered: the three provider calls succeed and return
the fixed data. -/
def render_page (ssm : SessionStateManager) : Except String (List UICall) :=
  render_kaizen_training_hub ssm (.ok (get_overhauled_kaizen_data ()))
    (.ok (get_overhauled_training_data ())) (.ok (get_glossary_content ()))

/-! ### Observation helpers over emitted traces -/

/-- Is the call a warning placeholder? -/
def isWarningCall : UICall → Bool
  | .warning _ => true
  | _ => false

/-- Is the call an error banner? -/
def isErrorBannerCall : UICall → Bool
  | .error _ => true
  | _ => false

/-- Is the call a log-sink entry? -/
def isLogCall : UICall → Bool
  | .logError _ => true
  | _ => false

/-- Is the call the opening of a bordered event container? -/
def isContainerCall : UICall → Bool
  | .containerStart _ => true
  | _ => false

/-- Is the call an `unsafe_allow_html` card? -/
def isHtmlCardCall : UICall → Bool
  | .markdownHtml _ => true
  | _ => false

/-- Is the call a formula rendering? -/
def isLatexCall : UICall → Bool
  | .latex _ => true
  | _ => false

/-- Is the call a collapsible-section opening? -/
def isExpanderCall : UICall → Bool
  | .expander _ _ => true
  | _ => false

/-- Is the call a plain `st.write` spacing element? -/
def isWriteCall : UICall → Bool
  | .write _ => true
  | _ => false

/-- Number of calls in a trace satisfying a predicate. -/
def countCalls (p : UICall → Bool) (trace : List UICall) : Nat :=
  (trace.filter p).length

/-- The collapsible sections of a trace, in order, with their default
expansion state. -/
def expanderStates (trace : List UICall) : List (String × Bool) :=
  trace.filterMap fun c =>
    match c with
    | .expander label expanded => some (label, expanded)
    | _ => none

/-- The HTML payloads of the `unsafe_allow_html` cards of a trace, in order. -/
def cardHtmls (trace : List UICall) : List String :=
  trace.filterMap fun c =>
    match c with
    | .markdownHtml html => some html
    | _ => none

/-- The keys of the button calls of a trace, in order (each event block has
exactly one button, keyed `report_` + event id, so this lists the identities
of the rendered event blocks in display order). -/
def buttonKeys (trace : List UICall) : List String :=
  trace.filterMap fun c =>
    match c with
    | .button _ key _ => some key
    | _ => none

/-- `s` contains `sub` as a contiguous substring. -/
def strContains (s sub : String) : Prop :=
  ∃ pre post, s = pre ++ sub ++ post

/-! ### Calendar dates and their zero-padded ISO rendering (for the implicit
format assumption behind the raw-string date sort) -/

/-- A calendar date by numeric components. -/
structure SimpleDate where
  year : Nat
  month : Nat
  day : Nat
deriving Repr, DecidableEq

/-- Well-formedness of a calendar date's components (four-digit year, real
month and day ranges). -/
def SimpleDate.valid (d : SimpleDate) : Prop :=
  d.year < 10000 ∧ 1 ≤ d.month ∧ d.month ≤ 12 ∧ 1 ≤ d.day ∧ d.day ≤ 31

instance (d : SimpleDate) : Decidable d.valid :=
  inferInstanceAs (Decidable (d.year < 10000 ∧ 1 ≤ d.month ∧ d.month ≤ 12 ∧ 1 ≤ d.day ∧ d.day ≤ 31))

/-- Chronological order on calendar dates: by year, then month, then day. -/
def chronLt (a b : SimpleDate) : Prop :=
  a.year < b.year ∨ (a.year = b.year ∧ (a.month < b.month ∨ (a.month = b.month ∧ a.day < b.day)))

/-- The `w` decimal digits of `n` (most significant first), as characters:
the zero-padded fixed-width decimal rendering of `n < 10^w`. -/
def padDigits : Nat → Nat → List Char
  | 0, _ => []
  | w + 1, n => Nat.digitChar (n / 10 ^ w) :: padDigits w (n % 10 ^ w)

/-- The zero-padded ISO `YYYY-MM-DD` string of a calendar date. -/
def toISO (d : SimpleDate) : String :=
  ⟨padDigits 4 d.year ++ '-' :: (padDigits 2 d.month ++ '-' :: padDigits 2 d.day)⟩

/-- The calendar dates of the four sample Kaizen events, keyed by identifier
(used to instantiate the ISO-format assumption of the lexicographic-order
theorem at the concrete provider data). -/
def kzDateOf (e : KaizenEvent) : SimpleDate :=
  if e.id = "KZN-01" then ⟨2025, 5, 22⟩
  else if e.id = "KZN-02" then ⟨2025, 6, 15⟩
  else if e.id = "KZN-03" then ⟨2025, 7, 1⟩
  else ⟨2025, 7, 20⟩

/-! ### The string order used by the sort, related to `List.Lex` -/

theorem strLt_iff_lex {s t : String} :
    strLt s t ↔ List.Lex (· < ·) s.data t.data :=
  List.lt_iff_lex_lt s.data t.data

theorem strLe_iff_not_lex {s t : String} :
    strLe s t ↔ ¬ List.Lex (· < ·) t.data s.data := by
  rw [strLe, strLt_iff_lex]

theorem lexCharTrichotomy (xs ys : List Char) :
    List.Lex (· < ·) xs ys ∨ xs = ys ∨ List.Lex (· < ·) ys xs :=
  @trichotomous (List Char) (List.Lex (· < ·)) _ xs ys

theorem lexCharAsymm {xs ys : List Char} (h : List.Lex (· < ·) xs ys) :
    ¬ List.Lex (· < ·) ys xs :=
  @asymm (List Char) (List.Lex (· < ·)) _ _ _ h

theorem lexCharTrans {xs ys zs : List Char} (h₁ : List.Lex (· < ·) xs ys)
    (h₂ : List.Lex (· < ·) ys zs) : List.Lex (· < ·) xs zs :=
  @IsTrans.trans (List Char) (List.Lex (· < ·)) _ _ _ _ h₁ h₂

theorem strLe_total (s t : String) : strLe s t ∨ strLe t s := by
  rw [strLe_iff_not_lex, strLe_iff_not_lex]
  by_cases h : List.Lex (· < ·) t.data s.data
  · exact Or.inr (lexCharAsymm h)
  · exact Or.inl h

theorem strLe_trans {s t u : String} (hst : strLe s t) (htu : strLe t u) :
    strLe s u := by
  rw [strLe_iff_not_lex] at *
  intro hus
  rcases lexCharTrichotomy t.data s.data with h | h | h
  · exact hst h
  · exact htu (h ▸ hus)
  · exact htu (lexCharTrans hus h)

theorem strLt_of_strLe_of_ne {s t : String} (h : strLe s t) (hne : s ≠ t) :
    strLt s t := by
  rw [strLe_iff_not_lex] at h
  rw [strLt_iff_lex]
  have hdata : s.data ≠ t.data := by
    intro hd
    cases s; cases t
    exact hne (congrArg String.mk hd)
  rcases lexCharTrichotomy s.data t.data with h' | h' | h'
  · exact h'
  · exact absurd h' hdata
  · exact absurd h' h

theorem sort_values_date_descending_sorted (events : List KaizenEvent) :
    (sort_values_date_descending events).Pairwise fun a b => strLe b.date a.date := by
  haveI : IsTotal KaizenEvent (fun a b => strLe b.date a.date) :=
    ⟨fun a b => strLe_total b.date a.date⟩
  haveI : IsTrans KaizenEvent (fun a b => strLe b.date a.date) :=
    ⟨fun _ _ _ hab hbc => strLe_trans hbc hab⟩
  exact List.sorted_insertionSort _ events

theorem sort_values_date_descending_perm (events : List KaizenEvent) :
    List.Perm (sort_values_date_descending events) events :=
  List.perm_insertionSort _ events

theorem sort_values_date_descending_strict (events : List KaizenEvent)
    (hd : (events.map fun e => e.date).Nodup) :
    (sort_values_date_descending events).Pairwise fun a b => strLt b.date a.date := by
  have hsorted := sort_values_date_descending_sorted events
  have hnodup : ((sort_values_date_descending events).map fun e => e.date).Nodup :=
    (((sort_values_date_descending_perm events).map fun e => e.date).nodup_iff).mpr hd
  have hne : (sort_values_date_descending events).Pairwise fun a b => a.date ≠ b.date :=
    List.pairwise_map.mp hnodup
  exact (hsorted.and hne).imp fun h => strLt_of_strLe_of_ne h.1 (Ne.symm h.2)

/-! ### Lexicographic order on zero-padded digit strings -/

theorem padDigits_length (w : Nat) : ∀ n, (padDigits w n).length = w := by
  induction w with
  | zero => intro n; rfl
  | succ w ih => intro n; simp [padDigits, ih]

theorem digitChar_lt_iff :
    ∀ a, a < 10 → ∀ b, b < 10 → (Nat.digitChar a < Nat.digitChar b ↔ a < b) := by
  decide

theorem digitChar_inj :
    ∀ a, a < 10 → ∀ b, b < 10 → (Nat.digitChar a = Nat.digitChar b ↔ a = b) := by
  decide

theorem lex_cons_inv {a b : Char} {as bs : List Char}
    (h : List.Lex (· < ·) (a :: as) (b :: bs)) :
    a < b ∨ (a = b ∧ List.Lex (· < ·) as bs) := by
  cases h with
  | rel h => exact Or.inl h
  | cons h => exact Or.inr ⟨rfl, h⟩

theorem div_pow_lt_ten {w n : Nat} (hn : n < 10 ^ (w + 1)) : n / 10 ^ w < 10 := by
  have hp : 0 < 10 ^ w := Nat.pos_pow_of_pos w (by omega)
  rw [Nat.div_lt_iff_lt_mul hp]
  calc n < 10 ^ (w + 1) := hn
    _ = 10 * 10 ^ w := by rw [Nat.pow_succ]; ring

theorem padDigits_lex_iff (w : Nat) :
    ∀ m n, m < 10 ^ w → n < 10 ^ w →
      (List.Lex (· < ·) (padDigits w m) (padDigits w n) ↔ m < n) := by
  induction w with
  | zero =>
    intro m n hm hn
    exact iff_of_false (List.Lex.not_nil_right _ _) (by omega)
  | succ w ih =>
    intro m n hm hn
    have hp : 0 < 10 ^ w := Nat.pos_pow_of_pos w (by omega)
    have hdm : m / 10 ^ w < 10 := div_pow_lt_ten hm
    have hdn : n / 10 ^ w < 10 := div_pow_lt_ten hn
    rcases Nat.lt_trichotomy (m / 10 ^ w) (n / 10 ^ w) with h | h | h
    · refine iff_of_true (List.Lex.rel ?_) (Nat.lt_of_div_lt_div h)
      exact (digitChar_lt_iff _ hdm _ hdn).mpr h
    · show List.Lex (· < ·)
        (Nat.digitChar (m / 10 ^ w) :: padDigits w (m % 10 ^ w))
        (Nat.digitChar (n / 10 ^ w) :: padDigits w (n % 10 ^ w)) ↔ m < n
      rw [h, List.Lex.cons_iff, ih (m % 10 ^ w) (n % 10 ^ w) (Nat.mod_lt _ hp) (Nat.mod_lt _ hp)]
      have e1 := Nat.div_add_mod m (10 ^ w)
      have e2 := Nat.div_add_mod n (10 ^ w)
      have hq : 10 ^ w * (m / 10 ^ w) = 10 ^ w * (n / 10 ^ w) := by rw [h]
      omega
    · refine iff_of_false ?_ (by have := Nat.lt_of_div_lt_div h; omega)
      intro hlex
      rcases lex_cons_inv hlex with hr | ⟨he, _⟩
      · have := (digitChar_lt_iff _ hdm _ hdn).mp hr
        omega
      · have := (digitChar_inj _ hdm _ hdn).mp he
        omega

theorem padDigits_inj_iff (w : Nat) :
    ∀ m n, m < 10 ^ w → n < 10 ^ w →
      (padDigits w m = padDigits w n ↔ m = n) := by
  induction w with
  | zero =>
    intro m n hm hn
    exact iff_of_true rfl (by omega)
  | succ w ih =>
    intro m n hm hn
    have hp : 0 < 10 ^ w := Nat.pos_pow_of_pos w (by omega)
    have hdm : m / 10 ^ w < 10 := div_pow_lt_ten hm
    have hdn : n / 10 ^ w < 10 := div_pow_lt_ten hn
    show Nat.digitChar (m / 10 ^ w) :: padDigits w (m % 10 ^ w) =
        Nat.digitChar (n / 10 ^ w) :: padDigits w (n % 10 ^ w) ↔ m = n
    rw [List.cons.injEq, digitChar_inj _ hdm _ hdn,
      ih (m % 10 ^ w) (n % 10 ^ w) (Nat.mod_lt _ hp) (Nat.mod_lt _ hp)]
    constructor
    · rintro ⟨h1, h2⟩
      rw [← Nat.div_add_mod m (10 ^ w), ← Nat.div_add_mod n (10 ^ w), h1, h2]
    · rintro rfl
      exact ⟨rfl, rfl⟩

theorem lex_append_iff :
    ∀ (xs xs' ys ys' : List Char), xs.length = xs'.length →
      (List.Lex (· < ·) (xs ++ ys) (xs' ++ ys') ↔
        List.Lex (· < ·) xs xs' ∨ (xs = xs' ∧ List.Lex (· < ·) ys ys')) := by
  intro xs
  induction xs with
  | nil =>
    intro xs' ys ys' hlen
    have hx : xs' = [] := List.length_eq_zero.mp (by simpa using hlen.symm)
    subst hx
    simp only [List.nil_append]
    constructor
    · intro h
      exact Or.inr ⟨by trivial, h⟩
    · rintro (h | ⟨-, h⟩)
      · exact absurd h (List.Lex.not_nil_right _ _)
      · exact h
  | cons a as ih =>
    intro xs' ys ys' hlen
    cases xs' with
    | nil => simp at hlen
    | cons b bs =>
      have hlen' : as.length = bs.length := by simpa using hlen
      rcases lt_trichotomy a b with hab | rfl | hba
      · exact iff_of_true (List.Lex.rel hab) (Or.inl (List.Lex.rel hab))
      · simp only [List.cons_append]
        rw [List.Lex.cons_iff, List.Lex.cons_iff, ih bs ys ys' hlen']
        simp [List.cons.injEq]
      · refine iff_of_false ?_ ?_
        · intro hlex
          rcases lex_cons_inv hlex with hr | ⟨he, _⟩
          · exact absurd hba (lt_asymm hr)
          · exact absurd hba (by rw [he]; exact lt_irrefl b)
        · intro hor
          rcases hor with hlex | ⟨he, _⟩
          · rcases lex_cons_inv hlex with hr | ⟨he, _⟩
            · exact absurd hba (lt_asymm hr)
            · exact absurd hba (by rw [he]; exact lt_irrefl b)
          · have : a = b := by injection he
            exact absurd hba (by rw [this]; exact lt_irrefl b)

theorem toISO_strLt_iff {a b : SimpleDate} (ha : a.valid) (hb : b.valid) :
    strLt (toISO a) (toISO b) ↔ chronLt a b := by
  obtain ⟨hay, ham1, ham2, had1, had2⟩ := ha
  obtain ⟨hby, hbm1, hbm2, hbd1, hbd2⟩ := hb
  have hm100a : a.month < 10 ^ 2 := by norm_num; omega
  have hm100b : b.month < 10 ^ 2 := by norm_num; omega
  have hd100a : a.day < 10 ^ 2 := by norm_num; omega
  have hd100b : b.day < 10 ^ 2 := by norm_num; omega
  have hy4a : a.year < 10 ^ 4 := by norm_num; omega
  have hy4b : b.year < 10 ^ 4 := by norm_num; omega
  rw [strLt_iff_lex]
  show List.Lex (· < ·)
      (padDigits 4 a.year ++ '-' :: (padDigits 2 a.month ++ '-' :: padDigits 2 a.day))
      (padDigits 4 b.year ++ '-' :: (padDigits 2 b.month ++ '-' :: padDigits 2 b.day)) ↔
    chronLt a b
  rw [lex_append_iff _ _ _ _ (by rw [padDigits_length, padDigits_length]),
    padDigits_lex_iff 4 _ _ hy4a hy4b, padDigits_inj_iff 4 _ _ hy4a hy4b,
    List.Lex.cons_iff,
    lex_append_iff _ _ _ _ (by rw [padDigits_length, padDigits_length]),
    padDigits_lex_iff 2 _ _ hm100a hm100b, padDigits_inj_iff 2 _ _ hm100a hm100b,
    List.Lex.cons_iff,
    padDigits_lex_iff 2 _ _ hd100a hd100b]
  exact Iff.rfl

/-! ### Claim theorems -/

/-- Claim C1: for every invocation of `render_kaizen_training_hub`, with any
state handle and any provider outcomes, the function never raises past its own
boundary: the whole composition is wrapped in a single catch-all, the result
is always a normal (`.ok`) trace, and whenever the try-block body fails the
trace shows an error banner embedding the failure description and emits a log
entry. -/
theorem render_never_raises (ssm : SessionStateManager)
    (ke : Except String (List KaizenEvent))
    (tm : Except String (List TrainingMaterial))
    (gc : Except String (List (String × List GlossaryTerm))) :
    ∃ trace, render_kaizen_training_hub ssm ke tm gc = .ok trace ∧
      ∀ e, renderTryBody ke tm gc = .error e →
        UICall.error ("An error occurred while rendering the Kaizen & Training Hub: " ++ e) ∈ trace ∧
        UICall.logError ("Failed to render kaizen and training hub: " ++ e) ∈ trace := by
  cases h : renderTryBody ke tm gc with
  | ok body =>
    refine ⟨[UICall.header "🎓 Continuous Improvement & Knowledge Hub",
      UICall.markdown pageIntroText] ++ body, ?_, ?_⟩
    · simp only [render_kaizen_training_hub, h]
    · intro e he
      exact absurd he (by simp)
  | error err =>
    refine ⟨[UICall.header "🎓 Continuous Improvement & Knowledge Hub",
      UICall.markdown pageIntroText] ++ exceptionHandler err, ?_, ?_⟩
    · simp only [render_kaizen_training_hub, h]
    · intro e he
      injection he with he'
      subst he'
      exact ⟨by simp [exceptionHandler], by simp [exceptionHandler]⟩

/-- Witness for C1: the page render with a failing event provider still
returns a normal trace carrying the banner and the log entry. -/
theorem render_never_raises_witness :
    ∃ trace, render_kaizen_training_hub ⟨⟩ (.error "boom") (.ok []) (.ok []) = .ok trace ∧
      ∀ e, renderTryBody (.error "boom") (.ok []) (.ok []) = (Except.error e : Except String (List UICall)) →
        UICall.error ("An error occurred while rendering the Kaizen & Training Hub: " ++ e) ∈ trace ∧
        UICall.logError ("Failed to render kaizen and training hub: " ++ e) ∈ trace :=
  render_never_raises ⟨⟩ (.error "boom") (.ok []) (.ok [])

/-- Claim C4: if the event provider raises during a render call, the render
call still completes normally (`.ok`), and the resulting trace has exactly one
error banner and exactly one log entry. -/
theorem provider_failure_contained (ssm : SessionStateManager) (e : String)
    (tm : Except String (List TrainingMaterial))
    (gc : Except String (List (String × List GlossaryTerm))) :
    ∃ trace, render_kaizen_training_hub ssm (.error e) tm gc = .ok trace ∧
      countCalls isErrorBannerCall trace = 1 ∧ countCalls isLogCall trace = 1 :=
  ⟨_, rfl, rfl, rfl⟩

/-- Witness for C4 at a concrete failure and the real other providers. -/
theorem provider_failure_contained_witness :
    ∃ trace, render_kaizen_training_hub ⟨⟩ (.error "data backend unavailable")
        (.ok (get_overhauled_training_data ())) (.ok (get_glossary_content ())) = .ok trace ∧
      countCalls isErrorBannerCall trace = 1 ∧ countCalls isLogCall trace = 1 :=
  provider_failure_contained ⟨⟩ "data backend unavailable" _ _

/-- Counterexample to claim C2 as stated: when the glossary provider returns
an empty collection, the Glossary panel does NOT display a warning placeholder
(the source has no emptiness check for the glossary, unlike the other two
panels). -/
theorem glossary_empty_no_warning :
    countCalls isWarningCall (renderGlossaryTab []) = 0 := by
  decide

/-- Claim C2 (amended): on an empty provider collection, the Event Log and
Training Library panels display their warning placeholder and render zero item
blocks; the Glossary panel renders zero category sections and zero term blocks
but no warning placeholder. -/
theorem empty_collection_panel_behavior :
    (UICall.warning "No Kaizen events have been logged in the data model." ∈ renderEventsTab [] ∧
      countCalls isContainerCall (renderEventsTab []) = 0) ∧
    (UICall.warning "No training materials are available in the data model." ∈ renderTrainingTab [] ∧
      countCalls isHtmlCardCall (renderTrainingTab []) = 0) ∧
    (countCalls isExpanderCall (renderGlossaryTab []) = 0 ∧
      countCalls isWriteCall (renderGlossaryTab []) = 0 ∧
      countCalls isWarningCall (renderGlossaryTab []) = 0) := by
  refine ⟨⟨?_, ?_⟩, ⟨?_, ?_⟩, ?_, ?_, ?_⟩ <;> decide

/-- Claim C5: a glossary term record with a formula field present produces
exactly one formula-rendering (`st.latex`) call; one without produces none. -/
theorem glossary_formula_calls (item : GlossaryTerm) :
    countCalls isLatexCall (renderGlossaryTerm item) =
      match item.formula with
      | some _ => 1
      | none => 0 := by
  rcases item with ⟨t, d, fm⟩
  cases fm <;> rfl

/-- Witness for C5: one term with a formula, one without. -/
theorem glossary_formula_calls_witness :
    countCalls isLatexCall (renderGlossaryTerm ⟨"Takt Time", "the heartbeat", some "T = A/D"⟩) = 1 ∧
    countCalls isLatexCall (renderGlossaryTerm ⟨"Gemba", "the real place", none⟩) = 0 :=
  ⟨glossary_formula_calls ⟨"Takt Time", "the heartbeat", some "T = A/D"⟩,
   glossary_formula_calls ⟨"Gemba", "the real place", none⟩⟩

/-- Claim C6: the three providers are deterministic and non-mutating: any two
calls (taking no input beyond the unit argument) return structurally identical
collections. -/
theorem providers_deterministic (u v : Unit) :
    get_overhauled_kaizen_data u = get_overhauled_kaizen_data v ∧
    get_overhauled_training_data u = get_overhauled_training_data v ∧
    get_glossary_content u = get_glossary_content v :=
  ⟨rfl, rfl, rfl⟩

/-- Claim C3: for any set of Kaizen events with pairwise distinct dates, the
Event Log panel renders them in strictly descending order of the date field;
in particular, for the four sample events the rendered block order is
KZN-04, KZN-03, KZN-02, KZN-01. -/
theorem event_log_descending_order (events : List KaizenEvent)
    (hd : (events.map fun e => e.date).Nodup) :
    ((sort_values_date_descending events).Pairwise fun a b => strLt b.date a.date) ∧
    (sort_values_date_descending (get_overhauled_kaizen_data ())).map (fun e => e.id) =
      ["KZN-04", "KZN-03", "KZN-02", "KZN-01"] ∧
    buttonKeys (renderEventsTab (get_overhauled_kaizen_data ())) =
      ["report_KZN-04", "report_KZN-03", "report_KZN-02", "report_KZN-01"] := by
  refine ⟨sort_values_date_descending_strict events hd, by decide, by decide⟩

/-- Witness for C3: the concrete provider data has pairwise distinct dates and
its rendered order is strictly descending. -/
theorem event_log_descending_order_witness :
    ((get_overhauled_kaizen_data ()).map fun e => e.date).Nodup ∧
    ((sort_values_date_descending (get_overhauled_kaizen_data ())).Pairwise fun a b =>
      strLt b.date a.date) :=
  ⟨by decide, (event_log_descending_order (get_overhauled_kaizen_data ()) (by decide)).1⟩

/-- Claim C7: in the rendered Glossary panel, each category is a collapsible
section; the first ("Lean Principles") is expanded by default and the other
three are collapsed by default. -/
theorem glossary_default_expansion :
    expanderStates (renderGlossaryTab (get_glossary_content ())) =
      [ ("**Lean Principles**", true)
      , ("**Six Sigma Concepts**", false)
      , ("**Statistical & Analytical Methods**", false)
      , ("**AI/ML for Operations**", false) ] := by
  decide

/-- Claim C8: each of the 5 sample training materials produces exactly one
card (in catalog order) containing its title, its icon and a
learning-objectives list with one `<li>` item per objective; in particular
every sample, including TRN-101, lists 4 objectives. -/
theorem training_cards_contract (material : TrainingMaterial) :
    (get_overhauled_training_data ()).length = 5 ∧
    cardHtmls (renderTrainingTab (get_overhauled_training_data ())) =
      (get_overhauled_training_data ()).map training_card_html ∧
    strContains (training_card_html material) material.title ∧
    strContains (training_card_html material) material.icon ∧
    strContains (training_card_html material) (objectives_html material.learning_objectives) ∧
    (material.learning_objectives.map fun obj => "<li>" ++ obj ++ "</li>").length =
      material.learning_objectives.length ∧
    ((get_overhauled_training_data ()).map fun m => (m.id, m.learning_objectives.length)) =
      [("TRN-101", 4), ("TRN-102", 4), ("TRN-103", 4), ("TRN-104", 4), ("TRN-105", 4)] := by
  refine ⟨rfl, rfl, ?_, ?_, ?_, by simp, by decide⟩
  · refine ⟨tcHtml1 ++ material.icon ++ tcHtml2,
      tcHtml3 ++ material.type ++ tcHtml4 ++ material.duration_hr ++ tcHtml5 ++
      material.target_audience ++ tcHtml6 ++ material.description ++ tcHtml7 ++
      objectives_html material.learning_objectives ++ tcHtml8 ++
      material.recommended_reading ++ tcHtml9 ++ material.link ++ tcHtml10, ?_⟩
    simp [training_card_html, String.append_assoc]
  · refine ⟨tcHtml1,
      tcHtml2 ++ material.title ++ tcHtml3 ++ material.type ++ tcHtml4 ++
      material.duration_hr ++ tcHtml5 ++ material.target_audience ++ tcHtml6 ++
      material.description ++ tcHtml7 ++ objectives_html material.learning_objectives ++
      tcHtml8 ++ material.recommended_reading ++ tcHtml9 ++ material.link ++ tcHtml10, ?_⟩
    simp [training_card_html, String.append_assoc]
  · refine ⟨tcHtml1 ++ material.icon ++ tcHtml2 ++ material.title ++ tcHtml3 ++
      material.type ++ tcHtml4 ++ material.duration_hr ++ tcHtml5 ++
      material.target_audience ++ tcHtml6 ++ material.description ++ tcHtml7,
      tcHtml8 ++ material.recommended_reading ++ tcHtml9 ++ material.link ++ tcHtml10, ?_⟩
    simp [training_card_html, String.append_assoc]

/-- Witness for C8 at a concrete material. -/
theorem training_cards_contract_witness :
    (get_overhauled_training_data ()).length = 5 ∧
    strContains
      (training_card_html ⟨"TRN-000", "Card Title", "eLearning", "1.0", "Everyone",
        "#", "★", "A description.", ["objective one", "objective two"], "A book"⟩)
      "Card Title" :=
  ⟨(training_cards_contract ⟨"TRN-000", "Card Title", "eLearning", "1.0", "Everyone",
      "#", "★", "A description.", ["objective one", "objective two"], "A book"⟩).1,
   (training_cards_contract ⟨"TRN-000", "Card Title", "eLearning", "1.0", "Everyone",
      "#", "★", "A description.", ["objective one", "objective two"], "A book"⟩).2.2.1⟩

/-- Claim C9: the Kaizen-event provider takes no input, is pure, and returns a
fixed, ordered, non-empty list whose identifiers are pairwise unique, both as
returned and as displayed (sorted) in a render batch. -/
theorem kaizen_provider_fixed_nonempty_unique_ids :
    (∀ u : Unit, get_overhauled_kaizen_data u = get_overhauled_kaizen_data ()) ∧
    get_overhauled_kaizen_data () ≠ [] ∧
    ((get_overhauled_kaizen_data ()).map fun e => e.id).Nodup ∧
    ((sort_values_date_descending (get_overhauled_kaizen_data ())).map fun e => e.id).Nodup :=
  ⟨fun _ => rfl, by decide, by decide, by decide⟩

/-- Claim C10: the renderer orders events by raw-string comparison of the date
field (the sort key of `sort_values_date_descending` is `strLe` on `date`);
for zero-padded ISO `YYYY-MM-DD` date strings this lexicographic order
coincides exactly with chronological order, so under that format assumption
the rendered order is chronologically descending. -/
theorem date_sort_lexicographic_iso (a b : SimpleDate) (ha : a.valid) (hb : b.valid)
    (events : List KaizenEvent) (dateOf : KaizenEvent → SimpleDate)
    (hiso : ∀ e ∈ events, (dateOf e).valid ∧ e.date = toISO (dateOf e)) :
    (strLt (toISO a) (toISO b) ↔ chronLt a b) ∧
    (sort_values_date_descending events).Pairwise fun e f =>
      ¬ chronLt (dateOf e) (dateOf f) := by
  refine ⟨toISO_strLt_iff ha hb, ?_⟩
  have hsorted := sort_values_date_descending_sorted events
  refine hsorted.imp_of_mem ?_
  intro e f he hf hle
  obtain ⟨hve, heq⟩ := hiso e ((sort_values_date_descending_perm events).mem_iff.mp he)
  obtain ⟨hvf, hfq⟩ := hiso f ((sort_values_date_descending_perm events).mem_iff.mp hf)
  intro hchron
  apply hle
  show strLt e.date f.date
  rw [heq, hfq]
  exact (toISO_strLt_iff hve hvf).mpr hchron

/-- Witness for C10: the ISO/chronological correspondence at two concrete
dates, and the chronological-descending conclusion at the concrete provider
data via the sample events' calendar dates. -/
theorem date_sort_lexicographic_iso_witness :
    (SimpleDate.mk 2025 7 20).valid ∧ (SimpleDate.mk 2025 5 22).valid ∧
    (∀ e ∈ get_overhauled_kaizen_data (), (kzDateOf e).valid ∧ e.date = toISO (kzDateOf e)) ∧
    ((strLt (toISO ⟨2025, 7, 20⟩) (toISO ⟨2025, 5, 22⟩) ↔ chronLt ⟨2025, 7, 20⟩ ⟨2025, 5, 22⟩) ∧
      (sort_values_date_descending (get_overhauled_kaizen_data ())).Pairwise fun e f =>
        ¬ chronLt (kzDateOf e) (kzDateOf f)) :=
  ⟨by decide, by decide, by decide,
   date_sort_lexicographic_iso ⟨2025, 7, 20⟩ ⟨2025, 5, 22⟩ (by decide) (by decide)
     (get_overhauled_kaizen_data ()) kzDateOf (by decide)⟩
